import Mathlib

/-!
Shallow embedding of `src/importers/salesforce.tsx`, the Salesforce case
importer pipeline.  Asynchronous effects (credential acquisition, `fetch`,
the host `save` call) are modelled by passing their outcomes in as oracle
arguments, and the side effects performed by a call are returned as an
explicit trace of `Effect`s.  JavaScript exceptions are modelled with
`Except JsError`.
-/

/-- The JavaScript error values thrown by the importer:
`aha.ConfigError`, `aha.AuthError` (message, service tag, optional
rich display error), a plain `Error` with a message, and the runtime
`TypeError` raised by a property access on `undefined`. -/
inductive JsError where
  | configError (msg : String)
  | authError (msg : String) (service : String) (displayError : Option String)
  | genericError (msg : String)
  | typeError
deriving Repr, DecidableEq

/-- Constructor (JS class) of an error value. -/
def jsErrorClass : JsError → String
  | JsError.configError _ => "ConfigError"
  | JsError.authError _ _ _ => "AuthError"
  | JsError.genericError _ => "Error"
  | JsError.typeError => "TypeError"

/-- `attributes` object of a raw Salesforce record. -/
structure RawAttributes where
  url : String
deriving Repr, DecidableEq

/-- A raw record of a Salesforce query result, as accessed by the code:
`Id`, `Subject`, `CaseNumber`, `attributes.url` are read unconditionally;
`Description`, `Status`, `Priority` may be null/missing. -/
structure RawRecord where
  Id : String
  Subject : String
  CaseNumber : String
  Description : Option String
  Status : Option String
  Priority : Option String
  attributes : RawAttributes
deriving Repr, DecidableEq

/-- The `ApiResponse` shape returned by `apiRequest` (a JSON object with
all fields optional, mirroring the dynamic access in the source:
`records`, `query` for describe responses, `Description` for the
case-detail fetch). -/
structure ApiResponse where
  done : Option Bool
  totalSize : Option Nat
  records : Option (List RawRecord)
  query : Option String
  Description : Option String
deriving Repr, DecidableEq

/-- The normalized `CaseRecord` surfaced to the host. -/
structure CaseRecord where
  uniqueId : String
  name : String
  url : String
  caseNumber : String
  description : Option String
  status : Option String
  priority : Option String
  jsonUrl : String
deriving Repr, DecidableEq

/-- JS truthiness of an optional string setting: `undefined`, `null` and
the empty string are falsy. -/
def strTruthy : Option String → Bool
  | none => false
  | some s => !(s == "")

/-- Outcome of one `fetch` call: either the promise rejects
(network-level failure) or an HTTP response with a status and a parsed
JSON body arrives. -/
inductive FetchOutcome where
  | networkFailure
  | httpResponse (status : Nat) (body : ApiResponse)
deriving Repr, DecidableEq

/-- Observable side effects of a pipeline call. -/
inductive Effect where
  | authCall
  | httpGet (url : String)
deriving Repr, DecidableEq

/-- `response.ok`: status in the inclusive range 200–299. -/
def responseOk (status : Nat) : Bool :=
  200 ≤ status && status ≤ 299

/-- Message of the `aha.ConfigError` thrown when the subdomain setting is
absent. -/
def configErrorMsg : String :=
  "This importer requires the subdomain for your Salesforce account. Please visit Settings > Account > Extensions > Salesforce cases to provide this."

/-- The rich `displayError` remediation text attached to the network
failure error (JSX flattened to text). -/
def connectivityRemediation : String :=
  "Error fetching data from Salesforce. 1. Check your Salesforce subdomain is correct in Settings > Account > Extensions > Salesforce cases. 2. Salesforce requires that you grant permission to Aha! to fetch data over the API. Visit Setup > Security > CORS in Salesforce to add your origin to your CORS allow list. 3. Your auth token may have expired, try authenticating using the button below."

/-- Default API base path of `apiRequest`. -/
def defaultBase : String := "/services/data/v54.0"

/-- `https://${settings.domain}.my.salesforce.com${base}`. -/
def apiBaseUrl (domain : Option String) (base : String) : String :=
  "https://" ++ domain.getD "" ++ ".my.salesforce.com" ++ base

/-- Embedding of `apiRequest`.  `domain` is `settings.domain`; `authR` is
the outcome of `aha.auth('salesforce', { useCachedRetry: true })`;
`fetchR` is the outcome of the underlying `fetch`.  Returns the
result (parsed body or thrown error) together with the trace of effects
actually performed, in order. -/
def apiRequest (domain : Option String) (authR : Except JsError String)
    (fetchR : FetchOutcome) (url : String) (base : String) :
    Except JsError ApiResponse × List Effect :=
  if !strTruthy domain then
    (Except.error (JsError.configError configErrorMsg), [])
  else
    match authR with
    | Except.error e => (Except.error e, [Effect.authCall])
    | Except.ok _token =>
      let fullUrl := apiBaseUrl domain base ++ url
      match fetchR with
      | FetchOutcome.networkFailure =>
        (Except.error (JsError.authError "Error fetching data from Salesforce."
            "salesforce" (some connectivityRemediation)),
         [Effect.authCall, Effect.httpGet fullUrl])
      | FetchOutcome.httpResponse status body =>
        if responseOk status then
          (Except.ok body, [Effect.authCall, Effect.httpGet fullUrl])
        else if status == 401 then
          (Except.error (JsError.authError
              ("Salesforce authentication error: " ++ toString status)
              "salesforce" none),
           [Effect.authCall, Effect.httpGet fullUrl])
        else
          (Except.error (JsError.genericError
              ("Salesforce API error: " ++ toString status)),
           [Effect.authCall, Effect.httpGet fullUrl])

/-- JS `\s`-whitespace for the purposes of `query.replace(/\s+/g, ' ')`
(ASCII cases). -/
def isWs (c : Char) : Bool :=
  c == ' ' || c == Char.ofNat 9 || c == Char.ofNat 10 || c == Char.ofNat 13 || c == Char.ofNat 11 || c == Char.ofNat 12

/-- `replace(/\s+/g, ' ')` on a character list: every maximal run of
whitespace becomes a single space.  The flag records whether the previous
character was part of a whitespace run. -/
def collapseWsAux : Bool → List Char → List Char
  | _, [] => []
  | prevWs, c :: rest =>
    if isWs c then
      if prevWs then collapseWsAux true rest
      else ' ' :: collapseWsAux true rest
    else c :: collapseWsAux false rest

/-- `query.replace(/\s+/g, ' ')`. -/
def collapseWs (s : String) : String :=
  String.mk (collapseWsAux false s.data)

/-- UTF-8 bytes of one character. -/
def utf8Bytes (c : Char) : List Nat :=
  let n := c.toNat
  if n < 128 then [n]
  else if n < 2048 then [192 + n / 64, 128 + n % 64]
  else if n < 65536 then [224 + n / 4096, 128 + (n / 64) % 64, 128 + n % 64]
  else [240 + n / 262144, 128 + (n / 4096) % 64, 128 + (n / 64) % 64, 128 + n % 64]

/-- Uppercase hexadecimal digit. -/
def hexDigit (n : Nat) : Char :=
  if n < 10 then Char.ofNat (48 + n) else Char.ofNat (55 + n)

/-- Characters left unescaped by `encodeURIComponent`:
alphanumerics and `- _ . ! ~ * ( )` and the apostrophe. -/
def isUnescaped (c : Char) : Bool :=
  c.isAlpha || c.isDigit || c == '-' || c == '_' || c == '.' || c == '!' ||
    c == Char.ofNat 126 || c == '*' || c == Char.ofNat 39 || c == '(' || c == ')'

/-- Percent-escape of one byte: `%XY` with uppercase hex. -/
def pctByte (b : Nat) : List Char :=
  [Char.ofNat 37, hexDigit (b / 16), hexDigit (b % 16)]

/-- `encodeURIComponent`. -/
def encodeURIComponent (s : String) : String :=
  String.mk (s.data.flatMap fun c =>
    if isUnescaped c then [c] else (utf8Bytes c).flatMap pctByte)

/-- `encodeQuery`: whitespace normalization followed by percent-encoding. -/
def encodeQuery (query : String) : String :=
  encodeURIComponent (collapseWs query)

/-- The deep-link URL of the transformed record:
`https://${settings.domain}.lightning.force.com/lightning/r/Case/${item.Id}/view`. -/
def caseUrl (domain id : String) : String :=
  "https://" ++ domain ++ ".lightning.force.com/lightning/r/Case/" ++ id ++ "/view"

/-- The per-item record transformation of the `listCandidates` handler. -/
def toCandidateRecord (domain : String) (item : RawRecord) : CaseRecord :=
  { uniqueId := item.Id
    name := item.Subject
    url := caseUrl domain item.Id
    caseNumber := item.CaseNumber
    description := item.Description
    status := item.Status
    priority := item.Priority
    jsonUrl := item.attributes.url }

/-- Embedding of the `listCandidates` handler.  `describeF` and `queryF`
are the fetch outcomes of the describe call and of the query call;
`listViewId` is `filters.listViewId`.  Returns the record list (or the
thrown error) and the trace of effects performed. -/
def listCandidates (domain : Option String) (authR : Except JsError String)
    (describeF queryF : FetchOutcome) (listViewId : Option String) :
    Except JsError (List CaseRecord) × List Effect :=
  if !strTruthy listViewId then
    (Except.ok [], [])
  else
    let lid := listViewId.getD ""
    match apiRequest domain authR describeF
        ("/sobjects/Case/listviews/" ++ lid ++ "/describe") defaultBase with
    | (Except.error e, tr1) => (Except.error e, tr1)
    | (Except.ok describe, tr1) =>
      match describe.query with
      | none => (Except.error JsError.typeError, tr1)
      | some q =>
        match apiRequest domain authR queryF
            ("/query/?q=" ++ encodeQuery q) defaultBase with
        | (Except.error e, tr2) => (Except.error e, tr1 ++ tr2)
        | (Except.ok resp, tr2) =>
          match resp.records with
          | none => (Except.error JsError.typeError, tr1 ++ tr2)
          | some recs =>
            (Except.ok (recs.map (toCandidateRecord (domain.getD ""))),
             tr1 ++ tr2)

/-- The host-owned target record (`ahaRecord`): its `description` field is
written and then persisted through `save`. -/
structure AhaRecord where
  referenceNum : String
  description : String
deriving Repr, DecidableEq

/-- `<p><a href="${importRecord.url}">View in Salesforce</a></p>`, the
fixed deep-link paragraph. -/
def deepLink (url : String) : String :=
  "<p><a href=\"" ++ url ++ "\">View in Salesforce</a></p>"

/-- `s.replace(/\r\n/g, '<br>')` on a character list: every literal
carriage-return/line-feed pair becomes `<br>`. -/
def replaceCrlfAux : Option Char → List Char → List Char
  | none, [] => []
  | some p, [] => [p]
  | none, c :: rest => replaceCrlfAux (some c) rest
  | some p, c :: rest =>
    if p == Char.ofNat 13 && c == Char.ofNat 10 then
      '<' :: 'b' :: 'r' :: '>' :: replaceCrlfAux none rest
    else
      p :: replaceCrlfAux (some c) rest

/-- `s.replace(/\r\n/g, '<br>')`. -/
def replaceCrlf (s : String) : String :=
  String.mk (replaceCrlfAux none s.data)

/-- The final description composed by the `importRecord` handler.
`fetchR` is the outcome the fallback `apiRequest(importRecord.jsonUrl, '')`
call would have; it is consulted only when `importRecord.description` is
falsy.  A missing `Description` on the fetched detail makes
`caseDetails.Description.replace` throw; the surrounding `catch` then
leaves the description at the initial deep-link paragraph, exactly as a
failed fetch does. -/
def composeDescription (c : CaseRecord) (fetchR : Except JsError ApiResponse) :
    String :=
  let link := deepLink c.url
  let fallback :=
    match fetchR with
    | Except.ok caseDetails =>
      match caseDetails.Description with
      | some d => "<p>" ++ replaceCrlf d ++ "</p>" ++ link
      | none => link
    | Except.error _ => link
  match c.description with
  | some d => if d == "" then fallback else "<p>" ++ replaceCrlf d ++ "</p>" ++ link
  | none => fallback

/-- Observable outcome of one `importRecord` handler run. -/
structure ImportRun where
  fetchAttempted : Bool
  record : AhaRecord
  saveCalled : Bool
  result : Except JsError Unit
deriving Repr

/-- Embedding of the `importRecord` handler.  `c` is the previously listed
candidate, `t` the host target record, `fetchR` the outcome of the
fallback detail fetch, `saveR` the outcome of `ahaRecord.save()`.  The
handler always reaches the assignment to `ahaRecord.description` and the
`save()` call; only the save outcome decides the handler's own outcome. -/
def runImportRecord (c : CaseRecord) (fetchR : Except JsError ApiResponse)
    (saveR : Except JsError Unit) (t : AhaRecord) : ImportRun :=
  { fetchAttempted := !strTruthy c.description
    record := { t with description := composeDescription c fetchR }
    saveCalled := true
    result := saveR }

/-! Concrete sample values used by witnesses and counterexamples. -/

/-- A JSON body with every optional field absent. -/
def emptyResponse : ApiResponse :=
  { done := none, totalSize := none, records := none, query := none,
    Description := none }

/-- A deep-link URL for the sample candidate. -/
def sampleUrl : String :=
  "https://acme.lightning.force.com/lightning/r/Case/500A/view"

/-- A raw Salesforce case record. -/
def rawA : RawRecord :=
  { Id := "500A", Subject := "Printer on fire", CaseNumber := "00001000",
    Description := some "Hello\r\nWorld", Status := some "New",
    Priority := some "High",
    attributes := { url := "/services/data/v54.0/sobjects/Case/500A" } }

/-- A raw record with all optional fields null/missing. -/
def rawBare : RawRecord :=
  { Id := "500B", Subject := "Screen cracked", CaseNumber := "00001001",
    Description := none, Status := none, Priority := none,
    attributes := { url := "/services/data/v54.0/sobjects/Case/500B" } }

/-- A describe response carrying a query with redundant whitespace. -/
def describeResp : ApiResponse :=
  { done := none, totalSize := none, records := some [],
    query := some "SELECT Id,  Subject\nFROM Case", Description := none }

/-- A query response with one record. -/
def queryResp : ApiResponse :=
  { done := some true, totalSize := some 1, records := some [rawA],
    query := none, Description := none }

/-- A detail response whose `Description` is present. -/
def detailFetched : ApiResponse :=
  { done := none, totalSize := none, records := none, query := none,
    Description := some "Fetched text" }

/-- A candidate with a non-empty description. -/
def candA : CaseRecord :=
  { uniqueId := "500A", name := "Printer on fire", url := sampleUrl,
    caseNumber := "00001000", description := some "Hello\r\nWorld",
    status := some "New", priority := some "High",
    jsonUrl := "/services/data/v54.0/sobjects/Case/500A" }

/-- A candidate whose description is present but empty (falsy in JS). -/
def candEmptyDesc : CaseRecord :=
  { candA with description := some "" }

/-- A candidate without a description. -/
def candNoDesc : CaseRecord :=
  { candA with description := none }

/-- A host target record. -/
def target0 : AhaRecord :=
  { referenceNum := "DEV-1", description := "old content" }

/-! Theorems. -/

/-- Claim C1: with the per-account subdomain setting absent, `apiRequest`
throws the `aha.ConfigError` (ConfigurationMissing) and performs no
effect at all — in particular no credential acquisition and no HTTP
attempt (the effect trace is empty). -/
theorem apiRequest_configurationMissing (domain : Option String)
    (authR : Except JsError String) (fetchR : FetchOutcome) (url base : String)
    (hd : strTruthy domain = false) :
    apiRequest domain authR fetchR url base
      = (Except.error (JsError.configError configErrorMsg), []) := by
  simp [apiRequest, hd]

/-- Witness for C1: concrete call with `domain = none`. -/
theorem apiRequest_configurationMissing_witness :
    apiRequest none (Except.ok "tok") FetchOutcome.networkFailure
        "/query/?q=x" defaultBase
      = (Except.error (JsError.configError configErrorMsg), []) :=
  apiRequest_configurationMissing none (Except.ok "tok")
    FetchOutcome.networkFailure "/query/?q=x" defaultBase rfl

/-- Claim C2: classification of HTTP responses by `apiRequest`: a 2xx
status returns the parsed body, a 401 throws `aha.AuthError` tagged
`salesforce`, and any other non-2xx status throws the generic error
carrying the status code. -/
theorem apiRequest_response_classification (domain : Option String)
    (tok url base : String) (status : Nat) (body : ApiResponse)
    (hd : strTruthy domain = true) :
    ((200 ≤ status ∧ status ≤ 299) →
      (apiRequest domain (Except.ok tok)
          (FetchOutcome.httpResponse status body) url base).1
        = Except.ok body)
    ∧ (status = 401 →
      (apiRequest domain (Except.ok tok)
          (FetchOutcome.httpResponse status body) url base).1
        = Except.error (JsError.authError
            ("Salesforce authentication error: " ++ toString status)
            "salesforce" none))
    ∧ (¬(200 ≤ status ∧ status ≤ 299) → status ≠ 401 →
      (apiRequest domain (Except.ok tok)
          (FetchOutcome.httpResponse status body) url base).1
        = Except.error (JsError.genericError
            ("Salesforce API error: " ++ toString status))) := by
  refine ⟨fun h => ?_, fun h => ?_, fun h h401 => ?_⟩
  · have hok : responseOk status = true := by
      simp [responseOk]
      omega
    simp [apiRequest, hd, hok]
  · subst h
    simp [apiRequest, hd, responseOk]
  · have hok : responseOk status = false := by
      simp [responseOk]
      omega
    have h4 : (status == 401) = false := by
      simp [h401]
    simp [apiRequest, hd, hok, h4]

/-- Witness for C2: a concrete 401 response throws the tagged
`aha.AuthError`. -/
theorem apiRequest_response_classification_witness :
    (apiRequest (some "acme") (Except.ok "tok")
        (FetchOutcome.httpResponse 401 emptyResponse) "/query/?q=x"
        defaultBase).1
      = Except.error (JsError.authError "Salesforce authentication error: 401"
          "salesforce" none) := by
  have h := (apiRequest_response_classification (some "acme") "tok"
    "/query/?q=x" defaultBase 401 emptyResponse rfl).2.1 rfl
  rw [h]
  rfl

/-- Claim C3 (amended): a network-level failure of the underlying `fetch`
makes `apiRequest` throw — never silently succeed — an `aha.AuthError`
tagged `salesforce` carrying the rich user-actionable remediation text
(subdomain check, CORS allow list, expired token).  Note this is the
same error class as the one used for HTTP 401, not a distinct
connectivity class. -/
theorem apiRequest_network_failure_authError (domain : Option String)
    (tok url base : String) (hd : strTruthy domain = true) :
    (apiRequest domain (Except.ok tok) FetchOutcome.networkFailure url base).1
      = Except.error (JsError.authError "Error fetching data from Salesforce."
          "salesforce" (some connectivityRemediation)) := by
  simp [apiRequest, hd]

/-- Witness for C3 (amended): concrete network failure. -/
theorem apiRequest_network_failure_authError_witness :
    (apiRequest (some "acme") (Except.ok "tok") FetchOutcome.networkFailure
        "/query/?q=x" defaultBase).1
      = Except.error (JsError.authError "Error fetching data from Salesforce."
          "salesforce" (some connectivityRemediation)) :=
  apiRequest_network_failure_authError (some "acme") "tok" "/query/?q=x"
    defaultBase rfl

/-- Counterexample for C3 as stated: the error thrown on network failure
has the same JS class (`AuthError`) as the error thrown on HTTP 401, so
it is not "an error class distinct from the 401 AuthenticationError". -/
theorem apiRequest_network_error_class_not_distinct :
    (apiRequest (some "acme") (Except.ok "tok") FetchOutcome.networkFailure
        "/query/?q=x" defaultBase).1
      = Except.error (JsError.authError "Error fetching data from Salesforce."
          "salesforce" (some connectivityRemediation))
    ∧ (apiRequest (some "acme") (Except.ok "tok")
        (FetchOutcome.httpResponse 401 emptyResponse) "/query/?q=x"
        defaultBase).1
      = Except.error (JsError.authError "Salesforce authentication error: 401"
          "salesforce" none)
    ∧ jsErrorClass (JsError.authError "Error fetching data from Salesforce."
          "salesforce" (some connectivityRemediation))
      = jsErrorClass (JsError.authError "Salesforce authentication error: 401"
          "salesforce" none) :=
  ⟨rfl, rfl, rfl⟩

/-- Claim C4: with the required `listViewId` filter value absent (falsy),
`listCandidates` returns the empty record list and performs no effect at
all (no credential acquisition, no HTTP request). -/
theorem listCandidates_missing_listViewId (domain : Option String)
    (authR : Except JsError String) (describeF queryF : FetchOutcome)
    (listViewId : Option String) (h : strTruthy listViewId = false) :
    listCandidates domain authR describeF queryF listViewId
      = (Except.ok [], []) := by
  simp [listCandidates, h]

/-- Witness for C4: concrete call with `listViewId = none`. -/
theorem listCandidates_missing_listViewId_witness :
    listCandidates (some "acme") (Except.ok "tok")
        (FetchOutcome.httpResponse 200 describeResp)
        (FetchOutcome.httpResponse 200 queryResp) none
      = (Except.ok [], []) :=
  listCandidates_missing_listViewId (some "acme") (Except.ok "tok")
    (FetchOutcome.httpResponse 200 describeResp)
    (FetchOutcome.httpResponse 200 queryResp) none rfl

/-- Claim C5: with a `listViewId` present, `listCandidates` performs
exactly two HTTP GETs, in order: first the describe request for that
saved-view id, then a single query request whose query text is the
describe response's query, whitespace-normalized and percent-encoded
(`encodeQuery`); no further request follows. -/
theorem listCandidates_describe_then_single_query (domain : Option String)
    (tok lid q : String) (s1 s2 : Nat) (describeBody queryBody : ApiResponse)
    (recs : List RawRecord)
    (hd : strTruthy domain = true) (hl : lid ≠ "")
    (hq : describeBody.query = some q)
    (h1 : 200 ≤ s1 ∧ s1 ≤ 299) (h2 : 200 ≤ s2 ∧ s2 ≤ 299)
    (hr : queryBody.records = some recs) :
    listCandidates domain (Except.ok tok)
        (FetchOutcome.httpResponse s1 describeBody)
        (FetchOutcome.httpResponse s2 queryBody) (some lid)
      = (Except.ok (recs.map (toCandidateRecord (domain.getD ""))),
         [Effect.authCall,
          Effect.httpGet (apiBaseUrl domain defaultBase
            ++ ("/sobjects/Case/listviews/" ++ lid ++ "/describe")),
          Effect.authCall,
          Effect.httpGet (apiBaseUrl domain defaultBase
            ++ ("/query/?q=" ++ encodeQuery q))]) := by
  have hls : strTruthy (some lid) = true := by
    simp [strTruthy, hl]
  have hok1 : responseOk s1 = true := by
    simp [responseOk]
    omega
  have hok2 : responseOk s2 = true := by
    simp [responseOk]
    omega
  simp [listCandidates, hls, apiRequest, hd, hok1, hok2, hq, hr]

/-- Witness for C5: a concrete saved-view listing.  The describe query
`"SELECT Id,  Subject\nFROM Case"` is issued with its whitespace
collapsed and percent-encoded, and exactly two GETs occur. -/
theorem listCandidates_describe_then_single_query_witness :
    listCandidates (some "acme") (Except.ok "tok")
        (FetchOutcome.httpResponse 200 describeResp)
        (FetchOutcome.httpResponse 200 queryResp) (some "00Bxx")
      = (Except.ok [candA],
         [Effect.authCall,
          Effect.httpGet
            "https://acme.my.salesforce.com/services/data/v54.0/sobjects/Case/listviews/00Bxx/describe",
          Effect.authCall,
          Effect.httpGet
            "https://acme.my.salesforce.com/services/data/v54.0/query/?q=SELECT%20Id%2C%20Subject%20FROM%20Case"]) := by
  have h := listCandidates_describe_then_single_query (some "acme") "tok"
    "00Bxx" "SELECT Id,  Subject\nFROM Case" 200 200 describeResp queryResp
    [rawA] rfl (by decide) rfl (by decide) (by decide) rfl
  rw [h]
  rfl

/-- Claim C6: the record transformation is a total function (it cannot
throw), and a raw record whose `Description`, `Status` and `Priority`
are null/missing maps to a candidate with those fields absent, the
scalar fields copied verbatim and the deep link built from the subdomain
and the primary key. -/
theorem toCandidateRecord_optional_fields_absent (domain : String)
    (item : RawRecord) (h1 : item.Description = none)
    (h2 : item.Status = none) (h3 : item.Priority = none) :
    toCandidateRecord domain item
      = { uniqueId := item.Id, name := item.Subject,
          url := caseUrl domain item.Id, caseNumber := item.CaseNumber,
          description := none, status := none, priority := none,
          jsonUrl := item.attributes.url } := by
  simp [toCandidateRecord, h1, h2, h3]

/-- Witness for C6: the bare raw record maps to a candidate with absent
optional fields. -/
theorem toCandidateRecord_optional_fields_absent_witness :
    toCandidateRecord "acme" rawBare
      = { uniqueId := "500B", name := "Screen cracked",
          url := "https://acme.lightning.force.com/lightning/r/Case/500B/view",
          caseNumber := "00001001", description := none, status := none,
          priority := none,
          jsonUrl := "/services/data/v54.0/sobjects/Case/500B" } := by
  have h := toCandidateRecord_optional_fields_absent "acme" rawBare rfl rfl rfl
  rw [h]
  rfl

/-- Claim C7 (amended): for a candidate whose description is present and
non-empty, the `importRecord` handler writes the description with every
literal CRLF replaced by `<br>`, wrapped in a paragraph, followed by the
fixed deep-link paragraph. -/
theorem importRecord_primary_description (c : CaseRecord)
    (fetchR : Except JsError ApiResponse) (saveR : Except JsError Unit)
    (t : AhaRecord) (d : String) (hdesc : c.description = some d)
    (hne : d ≠ "") :
    (runImportRecord c fetchR saveR t).record.description
      = "<p>" ++ replaceCrlf d ++ "</p>" ++ deepLink c.url := by
  simp [runImportRecord, composeDescription, hdesc, hne]

/-- Witness for C7 (amended): `"Hello\r\nWorld"` becomes
`<p>Hello<br>World</p>` followed by the deep-link paragraph. -/
theorem importRecord_primary_description_witness :
    (runImportRecord candA (Except.error JsError.typeError) (Except.ok ())
        target0).record.description
      = "<p>Hello<br>World</p>" ++ deepLink sampleUrl := by
  have h := importRecord_primary_description candA
    (Except.error JsError.typeError) (Except.ok ()) target0 "Hello\r\nWorld"
    rfl (by decide)
  rw [h]
  rfl

/-- Counterexample for C7 as stated: a candidate whose description is
present but empty is falsy in JS, so the handler takes the fallback
branch instead of using the present description: with a successful
detail fetch the written content is the fetched text, not the empty
description wrapped in a paragraph. -/
theorem importRecord_empty_description_not_primary :
    candEmptyDesc.description = some ""
    ∧ (runImportRecord candEmptyDesc (Except.ok detailFetched) (Except.ok ())
        target0).fetchAttempted = true
    ∧ (runImportRecord candEmptyDesc (Except.ok detailFetched) (Except.ok ())
        target0).record.description
      = "<p>Fetched text</p>" ++ deepLink sampleUrl
    ∧ (runImportRecord candEmptyDesc (Except.ok detailFetched) (Except.ok ())
        target0).record.description
      ≠ "<p>" ++ replaceCrlf "" ++ "</p>" ++ deepLink sampleUrl :=
  ⟨rfl, rfl, rfl, by decide⟩

/-- Claim C8: for a candidate without a (truthy) description, a failed
secondary detail fetch is non-fatal: the handler still writes the
deep-link-only description, still calls `save`, and its own outcome is
exactly the save outcome (the fetch error is not propagated). -/
theorem importRecord_secondary_fetch_failure_nonfatal (c : CaseRecord)
    (e : JsError) (saveR : Except JsError Unit) (t : AhaRecord)
    (h : strTruthy c.description = false) :
    (runImportRecord c (Except.error e) saveR t).record.description
        = deepLink c.url
    ∧ (runImportRecord c (Except.error e) saveR t).saveCalled = true
    ∧ (runImportRecord c (Except.error e) saveR t).result = saveR := by
  refine ⟨?_, rfl, rfl⟩
  cases hd : c.description with
  | none => simp [runImportRecord, composeDescription, hd]
  | some d =>
    rw [hd] at h
    have hde : d = "" := by simpa [strTruthy] using h
    subst hde
    simp [runImportRecord, composeDescription, hd]

/-- Witness for C8: concrete candidate without description, fetch throws
the generic API error, save succeeds. -/
theorem importRecord_secondary_fetch_failure_nonfatal_witness :
    (runImportRecord candNoDesc
        (Except.error (JsError.genericError "Salesforce API error: 500"))
        (Except.ok ()) target0).record.description = deepLink sampleUrl
    ∧ (runImportRecord candNoDesc
        (Except.error (JsError.genericError "Salesforce API error: 500"))
        (Except.ok ()) target0).saveCalled = true
    ∧ (runImportRecord candNoDesc
        (Except.error (JsError.genericError "Salesforce API error: 500"))
        (Except.ok ()) target0).result = Except.ok () :=
  importRecord_secondary_fetch_failure_nonfatal candNoDesc
    (JsError.genericError "Salesforce API error: 500") (Except.ok ())
    target0 rfl

/-- Claim C9: the `importRecord` handler is idempotent at the
target-write level: running it a second time on the already-imported
target yields the same target state, because the description write
overwrites and the written content does not depend on the target's
previous description. -/
theorem importRecord_idempotent (c : CaseRecord)
    (fetchR : Except JsError ApiResponse) (saveR : Except JsError Unit)
    (t : AhaRecord) :
    (runImportRecord c fetchR saveR
        (runImportRecord c fetchR saveR t).record).record
      = (runImportRecord c fetchR saveR t).record := rfl

/-- Claim C10: for a candidate without a (truthy) description, a
successful detail fetch whose body lacks a `Description` field makes the
composition throw inside the same `try` block; the `catch` swallows it,
so the handler completes with the deep-link-only description, still
calls `save`, and its outcome is the save outcome. -/
theorem importRecord_missing_detail_description_nonfatal (c : CaseRecord)
    (detail : ApiResponse) (saveR : Except JsError Unit) (t : AhaRecord)
    (h : strTruthy c.description = false)
    (hD : detail.Description = none) :
    (runImportRecord c (Except.ok detail) saveR t).record.description
        = deepLink c.url
    ∧ (runImportRecord c (Except.ok detail) saveR t).saveCalled = true
    ∧ (runImportRecord c (Except.ok detail) saveR t).result = saveR := by
  refine ⟨?_, rfl, rfl⟩
  cases hd : c.description with
  | none => simp [runImportRecord, composeDescription, hd, hD]
  | some d =>
    rw [hd] at h
    have hde : d = "" := by simpa [strTruthy] using h
    subst hde
    simp [runImportRecord, composeDescription, hd, hD]

/-- Witness for C10: concrete candidate without description, detail
fetch succeeds with a body lacking `Description`, save succeeds. -/
theorem importRecord_missing_detail_description_nonfatal_witness :
    (runImportRecord candNoDesc (Except.ok emptyResponse) (Except.ok ())
        target0).record.description = deepLink sampleUrl
    ∧ (runImportRecord candNoDesc (Except.ok emptyResponse) (Except.ok ())
        target0).saveCalled = true
    ∧ (runImportRecord candNoDesc (Except.ok emptyResponse) (Except.ok ())
        target0).result = Except.ok () :=
  importRecord_missing_detail_description_nonfatal candNoDesc emptyResponse
    (Except.ok ()) target0 rfl rfl
